import Mathlib

/-!
Verification development for the CineScope Recommender MCP server
(`CineScope_Recommender/mcp_server.py`).

The Python module is shallowly embedded: JSON values become the inductive
type `JVal` (Python floats are modelled as rationals, which is exact for
every value the proofs evaluate), Python dictionaries become association
lists, exceptions become `Except PyErr`, the network becomes an explicit
oracle of per-attempt outcomes, wall-clock time is an explicit rational
parameter, and the module-level cache is threaded through the dispatcher
as explicit state.  Each definition mirrors the source function of the
same name.
-/

/-- A JSON-like Python value: None, bool, int, float, str, list, dict. -/
inductive JVal where
  | null : JVal
  | bool (b : Bool) : JVal
  | int (n : Int) : JVal
  | float (q : ℚ) : JVal
  | str (s : String) : JVal
  | arr (elems : List JVal) : JVal
  | obj (fields : List (String × JVal)) : JVal

mutual
/-- Boolean equality on `JVal` (written out because deriving does not handle
the nested occurrence of `List`). -/
def jvalBeq : JVal → JVal → Bool
  | .null, .null => true
  | .bool a, .bool b => a == b
  | .int a, .int b => a == b
  | .float a, .float b => a == b
  | .str a, .str b => a == b
  | .arr a, .arr b => jvalListBeq a b
  | .obj a, .obj b => jvalFieldsBeq a b
  | _, _ => false

/-- Boolean equality on lists of values. -/
def jvalListBeq : List JVal → List JVal → Bool
  | [], [] => true
  | x :: xs, y :: ys => jvalBeq x y && jvalListBeq xs ys
  | _, _ => false

/-- Boolean equality on lists of fields. -/
def jvalFieldsBeq : List (String × JVal) → List (String × JVal) → Bool
  | [], [] => true
  | (k1, v1) :: xs, (k2, v2) :: ys => k1 == k2 && jvalBeq v1 v2 && jvalFieldsBeq xs ys
  | _, _ => false
end

mutual
theorem jvalBeq_iff : ∀ a b : JVal, jvalBeq a b = true ↔ a = b
  | .null, .null => by simp [jvalBeq]
  | .null, .bool _ => by simp [jvalBeq]
  | .null, .int _ => by simp [jvalBeq]
  | .null, .float _ => by simp [jvalBeq]
  | .null, .str _ => by simp [jvalBeq]
  | .null, .arr _ => by simp [jvalBeq]
  | .null, .obj _ => by simp [jvalBeq]
  | .bool _, .null => by simp [jvalBeq]
  | .bool a, .bool b => by simp [jvalBeq]
  | .bool _, .int _ => by simp [jvalBeq]
  | .bool _, .float _ => by simp [jvalBeq]
  | .bool _, .str _ => by simp [jvalBeq]
  | .bool _, .arr _ => by simp [jvalBeq]
  | .bool _, .obj _ => by simp [jvalBeq]
  | .int _, .null => by simp [jvalBeq]
  | .int _, .bool _ => by simp [jvalBeq]
  | .int a, .int b => by simp [jvalBeq]
  | .int _, .float _ => by simp [jvalBeq]
  | .int _, .str _ => by simp [jvalBeq]
  | .int _, .arr _ => by simp [jvalBeq]
  | .int _, .obj _ => by simp [jvalBeq]
  | .float _, .null => by simp [jvalBeq]
  | .float _, .bool _ => by simp [jvalBeq]
  | .float _, .int _ => by simp [jvalBeq]
  | .float a, .float b => by simp [jvalBeq]
  | .float _, .str _ => by simp [jvalBeq]
  | .float _, .arr _ => by simp [jvalBeq]
  | .float _, .obj _ => by simp [jvalBeq]
  | .str _, .null => by simp [jvalBeq]
  | .str _, .bool _ => by simp [jvalBeq]
  | .str _, .int _ => by simp [jvalBeq]
  | .str _, .float _ => by simp [jvalBeq]
  | .str a, .str b => by simp [jvalBeq]
  | .str _, .arr _ => by simp [jvalBeq]
  | .str _, .obj _ => by simp [jvalBeq]
  | .arr _, .null => by simp [jvalBeq]
  | .arr _, .bool _ => by simp [jvalBeq]
  | .arr _, .int _ => by simp [jvalBeq]
  | .arr _, .float _ => by simp [jvalBeq]
  | .arr _, .str _ => by simp [jvalBeq]
  | .arr a, .arr b => by
      rw [jvalBeq]
      rw [jvalListBeq_iff a b]
      simp
  | .arr _, .obj _ => by simp [jvalBeq]
  | .obj _, .null => by simp [jvalBeq]
  | .obj _, .bool _ => by simp [jvalBeq]
  | .obj _, .int _ => by simp [jvalBeq]
  | .obj _, .float _ => by simp [jvalBeq]
  | .obj _, .str _ => by simp [jvalBeq]
  | .obj _, .arr _ => by simp [jvalBeq]
  | .obj a, .obj b => by
      rw [jvalBeq]
      rw [jvalFieldsBeq_iff a b]
      simp

theorem jvalListBeq_iff : ∀ a b : List JVal, jvalListBeq a b = true ↔ a = b
  | [], [] => by simp [jvalListBeq]
  | [], _ :: _ => by simp [jvalListBeq]
  | _ :: _, [] => by simp [jvalListBeq]
  | x :: xs, y :: ys => by
      rw [jvalListBeq]
      rw [Bool.and_eq_true, jvalBeq_iff x y, jvalListBeq_iff xs ys]
      simp

theorem jvalFieldsBeq_iff :
    ∀ a b : List (String × JVal), jvalFieldsBeq a b = true ↔ a = b
  | [], [] => by simp [jvalFieldsBeq]
  | [], _ :: _ => by simp [jvalFieldsBeq]
  | _ :: _, [] => by simp [jvalFieldsBeq]
  | (k1, v1) :: xs, (k2, v2) :: ys => by
      rw [jvalFieldsBeq]
      rw [Bool.and_eq_true, Bool.and_eq_true, jvalBeq_iff v1 v2,
        jvalFieldsBeq_iff xs ys]
      simp [Prod.ext_iff, and_assoc]
end

instance : DecidableEq JVal := fun a b => decidable_of_iff _ (jvalBeq_iff a b)

/-- A Python dict with string keys, as an association list (first match wins;
real dicts never hold a duplicate key). -/
abbrev JObj := List (String × JVal)

/-- Python truthiness (`bool(x)`): None, False, 0, 0.0, "", [], {} are falsy. -/
def truthy : JVal → Bool
  | .null => false
  | .bool b => b
  | .int n => decide (n ≠ 0)
  | .float q => decide (q ≠ 0)
  | .str s => decide (s ≠ "")
  | .arr xs => !xs.isEmpty
  | .obj fs => !fs.isEmpty

/-- Python `a or b`: `a` if truthy, else `b`. -/
def pyOr (a b : JVal) : JVal := if truthy a then a else b

/-- First binding of a key in a dict. -/
def jlookup : JObj → String → Option JVal
  | [], _ => none
  | (k, v) :: rest, key => if k = key then some v else jlookup rest key

/-- Python `d.get(k)` (default None). -/
def dictGet (d : JObj) (k : String) : JVal := (jlookup d k).getD JVal.null

/-- Python `d.get(k, dflt)`. -/
def dictGetD (d : JObj) (k : String) (dflt : JVal) : JVal := (jlookup d k).getD dflt

/-- Python type name of a value, as used in runtime error messages. -/
def typeName : JVal → String
  | .null => "NoneType"
  | .bool _ => "bool"
  | .int _ => "int"
  | .float _ => "float"
  | .str _ => "str"
  | .arr _ => "list"
  | .obj _ => "dict"

/-- The string payload of a `JVal.str`, and `""` on any other constructor
(used only after a membership test has pinned the value to a string). -/
def jvalStr : JVal → String
  | .str s => s
  | _ => ""

/-- The classified error raised by the TMDB helpers (`class TMDBError`). -/
structure TMDBError where
  message : String
  code : String
  status : Nat
deriving DecidableEq, Repr

/-- A Python exception: either the classified `TMDBError` or one of the
builtin exception classes the module can raise at runtime. -/
inductive PyErr where
  | tmdb (e : TMDBError) : PyErr
  | attributeError (msg : String) : PyErr
  | keyError (key : String) : PyErr
  | valueError (msg : String) : PyErr
  | typeError (msg : String) : PyErr
deriving DecidableEq, Repr

/-- `str(e)` for a `PyErr` (a `KeyError` renders as the quoted key). -/
def pyMessage : PyErr → String
  | .tmdb e => e.message
  | .attributeError m => m
  | .keyError k => "\x27" ++ k ++ "\x27"
  | .valueError m => m
  | .typeError m => m

instance {ε α : Type} [DecidableEq ε] [DecidableEq α] : DecidableEq (Except ε α) := fun a b =>
  match a, b with
  | .error e, .error f =>
    if h : e = f then .isTrue (by rw [h]) else .isFalse (by simp [h])
  | .error _, .ok _ => .isFalse (fun h => Except.noConfusion h)
  | .ok _, .error _ => .isFalse (fun h => Except.noConfusion h)
  | .ok x, .ok y =>
    if h : x = y then .isTrue (by rw [h]) else .isFalse (by simp [h])

/-- Python `str.strip()` on a char list: drop whitespace at both ends. -/
def stripChars (cs : List Char) : List Char :=
  ((cs.dropWhile Char.isWhitespace).reverse.dropWhile Char.isWhitespace).reverse

/-- Python `str.strip()`. -/
def pyStripStr (s : String) : String := ⟨stripChars s.data⟩

/-- Python `v.strip()` on an arbitrary value: only strings have `strip`. -/
def pyStrip : JVal → Except PyErr String
  | .str s => .ok (pyStripStr s)
  | v => .error (.attributeError
      ("\x27" ++ typeName v ++ "\x27 object has no attribute \x27strip\x27"))

/-- Decimal value of a nonempty all-digit char list, else `none`. -/
def parseDigits (cs : List Char) : Option Nat :=
  if cs = [] then none
  else if cs.all Char.isDigit then
    some (cs.foldl (fun a c => a * 10 + (c.toNat - 48)) 0)
  else none

/-- Python `int(s)` on a string: optional sign and decimal digits after
stripping whitespace (digit-group underscores are not modelled). -/
def pyIntOfString (s : String) : Except PyErr Int :=
  let t := stripChars s.data
  let signDigits : Int × List Char :=
    match t with
    | '-' :: rest => (-1, rest)
    | '+' :: rest => (1, rest)
    | cs => (1, cs)
  match parseDigits signDigits.2 with
  | some n => .ok (signDigits.1 * n)
  | none => .error (.valueError
      ("invalid literal for int() with base 10: \x27" ++ s ++ "\x27"))

/-- Truncation of a rational toward zero (the semantics of `int(float)`). -/
def ratTrunc (q : ℚ) : Int := if q < 0 then -(Int.floor (-q)) else Int.floor q

/-- Python `int(v)`: ints and bools pass through, floats truncate, strings
parse, everything else raises `TypeError`. -/
def pyIntOf : JVal → Except PyErr Int
  | .int n => .ok n
  | .bool b => .ok (cond b 1 0)
  | .float q => .ok (ratTrunc q)
  | .str s => pyIntOfString s
  | v => .error (.typeError
      ("int() argument must be a string, a bytes-like object or a real number, not \x27"
        ++ typeName v ++ "\x27"))

/-- Python `float(s)` on a string: optional sign, digits, optional fraction
(exponent and inf/nan forms are not modelled). -/
def pyFloatOfString (s : String) : Except PyErr ℚ :=
  let t := stripChars s.data
  let signDigits : ℚ × List Char :=
    match t with
    | '-' :: rest => (-1, rest)
    | '+' :: rest => (1, rest)
    | cs => (1, cs)
  let intPart := signDigits.2.takeWhile Char.isDigit
  let rest := signDigits.2.dropWhile Char.isDigit
  let parsed : Option ℚ :=
    match rest with
    | [] => (parseDigits intPart).map (fun n => (n : ℚ))
    | '.' :: frac =>
      if frac.all Char.isDigit ∧ (intPart ≠ [] ∨ frac ≠ []) then
        let ip : Nat := (intPart.foldl (fun a c => a * 10 + (c.toNat - 48)) 0)
        let fp : Nat := (frac.foldl (fun a c => a * 10 + (c.toNat - 48)) 0)
        some ((ip : ℚ) + (fp : ℚ) / ((10 : ℚ) ^ frac.length))
      else none
    | _ => none
  match parsed with
  | some q => .ok (signDigits.1 * q)
  | none => .error (.valueError
      ("could not convert string to float: \x27" ++ s ++ "\x27"))

/-- Python `float(v)`. -/
def pyFloatOf : JVal → Except PyErr ℚ
  | .float q => .ok q
  | .int n => .ok (n : ℚ)
  | .bool b => .ok (cond b 1 0)
  | .str s => pyFloatOfString s
  | v => .error (.typeError
      ("float() argument must be a string or a real number, not \x27"
        ++ typeName v ++ "\x27"))

/-- Round to the nearest integer, ties to even (Python float formatting). -/
def roundHalfEven (x : ℚ) : Int :=
  let f := Int.floor x
  let r := x - (f : ℚ)
  if r < 1 / 2 then f
  else if 1 / 2 < r then f + 1
  else if f % 2 = 0 then f else f + 1

/-- Fixed-point rendering with one decimal digit (`format(x, ".1f")`). -/
def fmtFix1 (q : ℚ) : String :=
  let neg := q < 0
  let n := roundHalfEven (10 * |q|)
  let s := toString (n / 10) ++ "." ++ toString (n % 10)
  if neg then "-" ++ s else s

/-- Python `f"{v:.1f}"`: numeric values format, strings and containers raise. -/
def pyFormatFix1 : JVal → Except PyErr String
  | .int n => .ok (fmtFix1 (n : ℚ))
  | .float q => .ok (fmtFix1 q)
  | .bool b => .ok (fmtFix1 (cond b 1 0))
  | .str _ => .error (.valueError "Unknown format code \x27f\x27 for object of type \x27str\x27")
  | v => .error (.typeError ("unsupported format string passed to " ++ typeName v ++ ".format"))

/-- JSON string escaping as performed by `json.dumps` (the common cases). -/
def escapeChar (c : Char) : String :=
  if c = '"' then "\\\""
  else if c = '\\' then "\\\\"
  else if c = '\n' then "\\n"
  else if c = '\t' then "\\t"
  else if c = '\r' then "\\r"
  else String.singleton c

/-- Escape a whole string for JSON output. -/
def escapeStr (s : String) : String := String.join (s.data.map escapeChar)

/-- Deterministic rendering of a float in JSON output (model of `repr`). -/
def floatRepr (q : ℚ) : String := toString q.num ++ "/" ++ toString q.den

/-- Lexicographic strict order on char lists by code point (the order in
which `sorted` and `json.dumps(..., sort_keys=True)` arrange string keys). -/
def strLtB : List Char → List Char → Bool
  | [], [] => false
  | [], _ :: _ => true
  | _ :: _, [] => false
  | a :: as, b :: bs =>
    if a.toNat < b.toNat then true
    else if b.toNat < a.toNat then false
    else strLtB as bs

theorem strLtB_asymm : ∀ as bs, strLtB as bs = true → strLtB bs as = false
  | [], bs => by cases bs <;> simp [strLtB]
  | _ :: _, [] => by simp [strLtB]
  | a :: as, b :: bs => by
    intro h
    simp only [strLtB] at h ⊢
    rcases Nat.lt_trichotomy a.toNat b.toNat with hab | hab | hab
    · rw [if_neg (by omega), if_pos (by omega)]
    · rw [if_neg (by omega), if_neg (by omega)] at h
      rw [if_neg (by omega), if_neg (by omega)]
      exact strLtB_asymm as bs h
    · rw [if_neg (by omega), if_pos (by omega)] at h
      exact absurd h (by simp)

theorem strLtB_trans :
    ∀ as bs cs, strLtB as bs = true → strLtB bs cs = true → strLtB as cs = true
  | [], bs, cs => by cases bs <;> cases cs <;> simp [strLtB]
  | _ :: _, [], _ => by simp [strLtB]
  | _ :: _, _ :: _, [] => by intro _ h2; exact absurd h2 (by simp [strLtB])
  | a :: as, b :: bs, c :: cs => by
    intro h1 h2
    simp only [strLtB] at h1 h2 ⊢
    rcases Nat.lt_trichotomy a.toNat b.toNat with hab | hab | hab <;>
      rcases Nat.lt_trichotomy b.toNat c.toNat with hbc | hbc | hbc
    · rw [if_pos (by omega)]
    · rw [if_pos (by omega)]
    · rw [if_neg (by omega), if_pos (by omega)] at h2
      exact absurd h2 (by simp)
    · rw [if_pos (by omega)]
    · rw [if_neg (by omega), if_neg (by omega)] at h1
      rw [if_neg (by omega), if_neg (by omega)] at h2
      rw [if_neg (by omega), if_neg (by omega)]
      exact strLtB_trans as bs cs h1 h2
    · rw [if_neg (by omega), if_pos (by omega)] at h2
      exact absurd h2 (by simp)
    · rw [if_neg (by omega), if_pos (by omega)] at h1
      exact absurd h1 (by simp)
    · rw [if_neg (by omega), if_pos (by omega)] at h1
      exact absurd h1 (by simp)
    · rw [if_neg (by omega), if_pos (by omega)] at h1
      exact absurd h1 (by simp)

theorem strLtB_eq_of_not :
    ∀ as bs, strLtB as bs = false → strLtB bs as = false → as = bs
  | [], bs => by cases bs <;> simp [strLtB]
  | _ :: _, [] => by simp [strLtB]
  | a :: as, b :: bs => by
    intro h1 h2
    simp only [strLtB] at h1 h2
    rcases Nat.lt_trichotomy a.toNat b.toNat with hab | hab | hab
    · rw [if_pos (by omega)] at h1
      exact absurd h1 (by simp)
    · rw [if_neg (by omega), if_neg (by omega)] at h1
      rw [if_neg (by omega), if_neg (by omega)] at h2
      have ha : a = b := Char.eq_of_val_eq (UInt32.eq_of_val_eq (Fin.ext hab))
      rw [ha, strLtB_eq_of_not as bs h1 h2]
    · rw [if_pos (by omega)] at h2
      exact absurd h2 (by simp)

/-- Key order used by `json.dumps(..., sort_keys=True)`: not strictly above. -/
def pairLe (a b : String × String) : Prop := strLtB b.1.data a.1.data = false

instance : DecidableRel pairLe := fun a b =>
  inferInstanceAs (Decidable (strLtB b.1.data a.1.data = false))

instance : IsTotal (String × String) pairLe :=
  ⟨fun a b => by
    by_cases h : strLtB b.1.data a.1.data = false
    · exact Or.inl h
    · exact Or.inr (strLtB_asymm _ _ (by revert h; cases strLtB b.1.data a.1.data <;> simp))⟩

instance : IsTrans (String × String) pairLe :=
  ⟨fun a b c h1 h2 => by
    unfold pairLe at *
    by_contra hca
    have hca2 : strLtB c.1.data a.1.data = true := by
      revert hca; cases strLtB c.1.data a.1.data <;> simp
    by_cases hbc : strLtB b.1.data c.1.data = true
    · exact absurd (strLtB_trans _ _ _ hbc hca2) (by rw [h1]; simp)
    · have : b.1.data = c.1.data :=
        strLtB_eq_of_not _ _ (by revert hbc; cases strLtB b.1.data c.1.data <;> simp) h2
      rw [← this] at hca2
      rw [hca2] at h1
      exact Bool.noConfusion h1⟩

/-- Strict key order, used to show sorted serializations are unique. -/
def pairLt (a b : String × String) : Prop := strLtB a.1.data b.1.data = true

instance : IsAntisymm (String × String) pairLt :=
  ⟨fun a b h1 h2 => by
    have := strLtB_asymm _ _ h1
    rw [h2] at this
    exact Bool.noConfusion this⟩

mutual
/-- `json.dumps(v, sort_keys=True)`: deterministic serialization with the
keys of every object emitted in sorted order. -/
def dumps : JVal → String
  | .null => "null"
  | .bool b => cond b "true" "false"
  | .int n => toString n
  | .float q => floatRepr q
  | .str s => "\"" ++ escapeStr s ++ "\""
  | .arr xs => "[" ++ String.intercalate ", " (dumpsList xs) ++ "]"
  | .obj fs =>
    "\x7b" ++ String.intercalate ", "
      (List.map Prod.snd (List.insertionSort pairLe (dumpsFields fs))) ++ "\x7d"

/-- Serialize each array element. -/
def dumpsList : List JVal → List String
  | [] => []
  | x :: xs => dumps x :: dumpsList xs

/-- Serialize each object field, keeping the key for sorting. -/
def dumpsFields : List (String × JVal) → List (String × String)
  | [] => []
  | (k, v) :: fs => (k, "\"" ++ escapeStr k ++ "\": " ++ dumps v) :: dumpsFields fs
end

/-- `CACHE_TTL_SECONDS = 300`. -/
def CACHE_TTL_SECONDS : ℚ := 300

/-- `MAX_RETRIES = 3`. -/
def MAX_RETRIES : Nat := 3

/-- `INITIAL_BACKOFF_SECONDS = 1.0`. -/
def INITIAL_BACKOFF_SECONDS : ℚ := 1

/-- The module cache `_cache : Dict[Tuple[str, str], Tuple[float, Any]]`. -/
abbrev CacheT := List ((String × String) × (ℚ × JVal))

/-- Lookup in the cache dict. -/
def dictFind (c : CacheT) (k : String × String) : Option (ℚ × JVal) :=
  match c with
  | [] => none
  | (k2, v) :: rest => if k2 = k then some v else dictFind rest k

/-- `_cache.pop(key, None)`: remove a key. -/
def dictPop (c : CacheT) (k : String × String) : CacheT :=
  c.filter (fun e => decide (e.1 ≠ k))

/-- `_cache[key] = value`: replace in place, or append a new binding. -/
def dictSet (c : CacheT) (k : String × String) (v : ℚ × JVal) : CacheT :=
  if (dictFind c k).isSome then
    c.map (fun e => if e.1 = k then (k, v) else e)
  else c ++ [(k, v)]

/-- The cache key `(tool_name, json.dumps(args, sort_keys=True))`. -/
def cacheKey (toolName : String) (args : JObj) : String × String :=
  (toolName, dumps (.obj args))

/-- `_cache_get`: lazy-TTL lookup; returns the payload if present and fresh,
and the cache after the lazy eviction of an expired entry. -/
def _cache_get (c : CacheT) (now : ℚ) (toolName : String) (args : JObj) :
    Option JVal × CacheT :=
  let key := cacheKey toolName args
  match dictFind c key with
  | none => (none, c)
  | some (ts, data) =>
    if now - ts > CACHE_TTL_SECONDS then (none, dictPop c key)
    else (some data, c)

/-- `_cache_set`: store a payload under the canonical key at the current time. -/
def _cache_set (c : CacheT) (now : ℚ) (toolName : String) (args : JObj)
    (data : JVal) : CacheT :=
  dictSet c (cacheKey toolName args) (now, data)

/-- The outcome of a single HTTP attempt: a transport-level failure, or a
response with a status code and (for non-error statuses) a body that either
parses as JSON (`some`) or does not (`none`). -/
inductive HttpOutcome where
  | requestError : HttpOutcome
  | response (status : Nat) (body : Option JVal) : HttpOutcome

/-- What one call of `_tmdb_get` did: its result, how many attempts it made,
and the backoff delays it slept between attempts. -/
structure FetchTrace where
  result : Except TMDBError JVal
  attempts : Nat
  sleeps : List ℚ
deriving DecidableEq

/-- The retry loop body of `_tmdb_get` (`for attempt in range(1, MAX_RETRIES+1)`),
with the remaining iterations as explicit fuel and the slept delays
accumulated in reverse. -/
def tmdbLoop (responses : Nat → HttpOutcome) :
    Nat → Nat → ℚ → List ℚ → FetchTrace
  | 0, attempt, _, sleeps =>
    ⟨.error ⟨"Exhausted TMDB retries", "UNKNOWN_ERROR", 500⟩, attempt - 1, sleeps.reverse⟩
  | fuel + 1, attempt, backoff, sleeps =>
    match responses attempt with
    | .requestError =>
      if attempt = MAX_RETRIES then
        ⟨.error ⟨"Network error talking to TMDB", "NETWORK_ERROR", 500⟩,
          attempt, sleeps.reverse⟩
      else tmdbLoop responses fuel (attempt + 1) (backoff * 2) (backoff :: sleeps)
    | .response status body =>
      if status = 429 then
        if attempt = MAX_RETRIES then
          ⟨.error ⟨"TMDB rate limit reached after retries", "RATE_LIMIT", 429⟩,
            attempt, sleeps.reverse⟩
        else tmdbLoop responses fuel (attempt + 1) (backoff * 2) (backoff :: sleeps)
      else if 500 ≤ status then
        if attempt = MAX_RETRIES then
          ⟨.error ⟨"TMDB service unavailable", "UPSTREAM_ERROR", status⟩,
            attempt, sleeps.reverse⟩
        else tmdbLoop responses fuel (attempt + 1) (backoff * 2) (backoff :: sleeps)
      else if 400 ≤ status then
        ⟨.error ⟨"TMDB returned " ++ toString status, "BAD_REQUEST", status⟩,
          attempt, sleeps.reverse⟩
      else
        match body with
        | some j => ⟨.ok j, attempt, sleeps.reverse⟩
        | none => ⟨.error ⟨"Failed to parse TMDB JSON", "JSON_ERROR", 500⟩,
            attempt, sleeps.reverse⟩

/-- `_tmdb_get`: missing credential fails immediately with `CONFIG_ERROR` and
zero attempts; otherwise run the bounded retry loop against the per-attempt
network oracle. -/
def tmdb_get (apiKeySet : Bool) (responses : Nat → HttpOutcome) : FetchTrace :=
  if apiKeySet = false then
    ⟨.error ⟨"TMDB_API_KEY missing in environment", "CONFIG_ERROR", 500⟩, 0, []⟩
  else tmdbLoop responses MAX_RETRIES 1 INITIAL_BACKOFF_SECONDS []

/-- The leading segment of a string before the first dash
(`date_field.split("-")[0]`). -/
def headSegment (s : String) : String := ⟨s.data.takeWhile (fun c => c != '-')⟩

/-- `_map_search_item`: normalise one raw TMDB record to the stable result
shape.  Mirrors the source line by line: the `or`-chains use Python
truthiness, a truthy non-string date field would fail `.split`, `int`/`float`
coercions can raise, and `item["id"]` raises `KeyError` when absent. -/
def _map_search_item (item : JVal) (item_type : String) : Except PyErr JVal :=
  match item with
  | .obj fields =>
    match (if truthy (pyOr (dictGet fields "release_date") (dictGet fields "first_air_date")) then
        match pyOr (dictGet fields "release_date") (dictGet fields "first_air_date") with
        | .str s => (pyIntOfString (headSegment s)).map JVal.int
        | v => .error (.attributeError
            ("\x27" ++ typeName v ++ "\x27 object has no attribute \x27split\x27"))
      else .ok JVal.null : Except PyErr JVal) with
    | .error e => .error e
    | .ok year =>
      match pyFloatOf (pyOr (dictGet fields "vote_average") (.float 0)) with
      | .error e => .error e
      | .ok rating =>
        match jlookup fields "id" with
        | none => .error (.keyError "id")
        | some v =>
          match pyIntOf v with
          | .error e => .error e
          | .ok idv =>
            .ok (.obj [("id", .int idv),
              ("title", pyOr (pyOr (dictGet fields "title") (dictGet fields "name")) (.str "")),
              ("type", .str item_type), ("year", year), ("rating", .float rating),
              ("overview", dictGetD fields "overview" (.str "")),
              ("poster_path", dictGet fields "poster_path")])
  | v => .error (.attributeError
      ("\x27" ++ typeName v ++ "\x27 object has no attribute \x27get\x27"))

/-- Python `for item in v`: lists iterate elements, strings iterate
one-character strings, dicts iterate keys, other values raise `TypeError`. -/
def pyIter : JVal → Except PyErr (List JVal)
  | .arr xs => .ok xs
  | .str s => .ok (s.data.map (fun c => .str (String.singleton c)))
  | .obj fs => .ok (fs.map (fun kv => .str kv.1))
  | v => .error (.typeError ("\x27" ++ typeName v ++ "\x27 object is not iterable"))

/-- A list comprehension over a fallible body: the first raised exception
propagates. -/
def mapExcept (f : JVal → Except PyErr JVal) : List JVal → Except PyErr (List JVal)
  | [] => .ok []
  | x :: xs =>
    match f x with
    | .error e => .error e
    | .ok y =>
      match mapExcept f xs with
      | .error e => .error e
      | .ok ys => .ok (y :: ys)

/-- `[_map_search_item(item, t) for item in results]`. -/
def mapSearchItems (results : JVal) (t : String) : Except PyErr (List JVal) :=
  match pyIter results with
  | .error e => .error e
  | .ok items => mapExcept (fun it => _map_search_item it t) items

/-- The fields of a dict value (`[]` on non-dicts; used only where the value
is already known to be a dict). -/
def jvalFields : JVal → JObj
  | .obj fs => fs
  | _ => []

/-- One iteration of the recommendation loop: normalise the record and build
its human-readable `reason` string. -/
def recItem (item : JVal) (t : String) : Except PyErr JVal :=
  match _map_search_item item t with
  | .error e => .error e
  | .ok base =>
    match (if truthy (dictGet (jvalFields item) "vote_average") then
        match pyFormatFix1 (dictGet (jvalFields item) "vote_average") with
        | .error e => .error e
        | .ok s => .ok ["high user rating " ++ s]
      else .ok [] : Except PyErr (List String)) with
    | .error e => .error e
    | .ok reason1 =>
      let reason :=
        if truthy (dictGet (jvalFields item) "popularity") then
          reason1 ++ ["popular among similar viewers"]
        else reason1
      .ok (.obj [("id", dictGet (jvalFields base) "id"),
        ("title", dictGet (jvalFields base) "title"),
        ("year", dictGet (jvalFields base) "year"),
        ("reason", if reason = [] then JVal.null else .str (String.intercalate "; " reason))])

/-- The recommendation list comprehension. -/
def recItems (results : JVal) (t : String) : Except PyErr (List JVal) :=
  match pyIter results with
  | .error e => .error e
  | .ok items => mapExcept (fun it => recItem it t) items

/-- The upstream client as seen by a query operation: the result of
`_tmdb_get` for a given path and params. -/
abbrev Upstream := String → JObj → Except TMDBError JVal

/-- A provider request issued by an operation: `(path, params)`. -/
abbrev Request := String × JObj

/-- `isinstance(v, int)` (Python bools are ints). -/
def isPyInt : JVal → Bool
  | .int _ => true
  | .bool _ => true
  | _ => false

/-- Python `v.get(k, dflt)` on an arbitrary value: only dicts have `get`. -/
def pyGetD (v : JVal) (k : String) (dflt : JVal) : Except PyErr JVal :=
  match v with
  | .obj fs => .ok (dictGetD fs k dflt)
  | _ => .error (.attributeError
      ("\x27" ++ typeName v ++ "\x27 object has no attribute \x27get\x27"))

/-- Shorthand for raising a `VALIDATION_ERROR` (status 400). -/
def VALIDATION (msg : String) : PyErr := .tmdb ⟨msg, "VALIDATION_ERROR", 400⟩

/-- `_search_title`: validate, build the search request, call upstream, fail
with `TITLE_NOT_FOUND` on an empty result list, else normalise.  Returns the
operation outcome together with the provider requests it issued. -/
def _search_title (upstream : Upstream) (now : ℚ) (args : JObj) :
    Except PyErr JVal × List Request :=
  match pyStrip (dictGetD args "query" (.str "")) with
  | .error e => (.error e, [])
  | .ok query =>
    if query = "" then (.error (VALIDATION "query is required"), [])
    else
      let item_type := pyOr (dictGet args "type") (.str "movie")
      if ¬(item_type = JVal.str "movie" ∨ item_type = JVal.str "tv") then
        (.error (VALIDATION "type must be \x27movie\x27 or \x27tv\x27"), [])
      else
        let year := dictGet args "year"
        let language := pyOr (dictGet args "language") (.str "en-US")
        let params0 : JObj :=
          [("query", .str query), ("language", language), ("include_adult", .bool false)]
        let yearStep : Except PyErr JObj :=
          if year = JVal.null then .ok params0
          else if isPyInt year = false then
            .error (VALIDATION "year must be an integer")
          else if item_type = JVal.str "movie" then
            .ok (params0 ++ [("primary_release_year", year)])
          else .ok (params0 ++ [("first_air_date_year", year)])
        match yearStep with
        | .error e => (.error e, [])
        | .ok params =>
          let path := if item_type = JVal.str "movie" then "/search/movie" else "/search/tv"
          let type_str := jvalStr item_type
          match upstream path params with
          | .error e => (.error (.tmdb e), [(path, params)])
          | .ok data =>
            match pyGetD data "results" (.arr []) with
            | .error e => (.error e, [(path, params)])
            | .ok results =>
            if truthy results = false then
              (.error (.tmdb ⟨"No results for query \x27" ++ query ++ "\x27",
                "TITLE_NOT_FOUND", 404⟩), [(path, params)])
            else
              match mapSearchItems results type_str with
              | .error e => (.error e, [(path, params)])
              | .ok mapped =>
                (.ok (.obj [("results", .arr mapped), ("source", .str "TMDB"),
                  ("fetched_at", .float now)]), [(path, params)])

/-- `_get_recommendations`: coerce the id (any `int()` failure is caught and
reported as validation), validate the type, fetch, and build reasons. -/
def _get_recommendations (upstream : Upstream) (now : ℚ) (args : JObj) :
    Except PyErr JVal × List Request :=
  match pyIntOf (dictGet args "id") with
  | .error _ => (.error (VALIDATION "id must be an integer"), [])
  | .ok media_id =>
    let item_type := dictGet args "type"
    if ¬(item_type = JVal.str "movie" ∨ item_type = JVal.str "tv") then
      (.error (VALIDATION "type must be \x27movie\x27 or \x27tv\x27"), [])
    else
      let path :=
        if item_type = JVal.str "movie" then
          "/movie/" ++ toString media_id ++ "/recommendations"
        else "/tv/" ++ toString media_id ++ "/recommendations"
      let params : JObj := [("language", .str "en-US")]
      let type_str := jvalStr item_type
      match upstream path params with
      | .error e => (.error (.tmdb e), [(path, params)])
      | .ok data =>
        match pyGetD data "results" (.arr []) with
        | .error e => (.error e, [(path, params)])
        | .ok results =>
        match recItems results type_str with
        | .error e => (.error e, [(path, params)])
        | .ok recs =>
          (.ok (.obj [("results", .arr recs), ("source", .str "TMDB"),
            ("fetched_at", .float now)]), [(path, params)])

/-- `_discover`: validate type and sort order, build the discover request
(the genre names are read but never forwarded), fetch, normalise. -/
def _discover (upstream : Upstream) (now : ℚ) (args : JObj) :
    Except PyErr JVal × List Request :=
  let item_type := dictGet args "type"
  if ¬(item_type = JVal.str "movie" ∨ item_type = JVal.str "tv") then
    (.error (VALIDATION "type must be \x27movie\x27 or \x27tv\x27"), [])
  else
    let genre_names := pyOr (dictGet args "genre") (.arr [])
    let year := dictGet args "year"
    let language := pyOr (dictGet args "language") (.str "en-US")
    let sort_by := pyOr (dictGet args "sort_by") (.str "popularity")
    if ¬(sort_by = JVal.str "popularity" ∨ sort_by = JVal.str "vote_average") then
      (.error (VALIDATION "sort_by must be \x27popularity\x27 or \x27vote_average\x27"), [])
    else
      let params0 : JObj :=
        [("language", language), ("include_adult", .bool false),
          ("sort_by", .str (jvalStr sort_by ++ ".desc"))]
      let yearStep : Except PyErr JObj :=
        if year = JVal.null then .ok params0
        else if isPyInt year = false then
          .error (VALIDATION "year must be an integer")
        else if item_type = JVal.str "movie" then
          .ok (params0 ++ [("primary_release_year", year)])
        else .ok (params0 ++ [("first_air_date_year", year)])
      match yearStep with
      | .error e => (.error e, [])
      | .ok params =>
        let _ := genre_names
        let path := if item_type = JVal.str "movie" then "/discover/movie" else "/discover/tv"
        let type_str := jvalStr item_type
        match upstream path params with
        | .error e => (.error (.tmdb e), [(path, params)])
        | .ok data =>
          match pyGetD data "results" (.arr []) with
          | .error e => (.error e, [(path, params)])
          | .ok results =>
          match mapSearchItems results type_str with
          | .error e => (.error e, [(path, params)])
          | .ok mapped =>
            (.ok (.obj [("results", .arr mapped), ("source", .str "TMDB"),
              ("fetched_at", .float now)]), [(path, params)])

/-- The `_tmdb_get` result for each path/params, given a per-attempt network
oracle: the upstream client the operations actually run against. -/
def tmdbUpstream (apiKeySet : Bool) (oracle : String → JObj → Nat → HttpOutcome) :
    Upstream :=
  fun path params => (tmdb_get apiKeySet (oracle path params)).result

/-- The result content of one dispatcher call (`CallToolResult`): the JSON
payload placed in the text content, and the `isError` flag. -/
structure CallResult where
  text : JVal
  isError : Bool
deriving DecidableEq

/-- Everything one `call_tool` invocation did: its result, the cache state
it left behind, the keys it read and wrote, the provider requests issued,
and whether it was served from the cache. -/
structure DispatchTrace where
  result : CallResult
  cache : CacheT
  cacheReads : List (String × String)
  cacheWrites : List (String × String)
  requests : List Request
  cacheHit : Bool
deriving DecidableEq

/-- Routing of a data-operation name to its query operation; an unknown
name raises `UNKNOWN_TOOL`. -/
def dispatch_op (upstream : Upstream) (now : ℚ) (name : String) (args : JObj) :
    Except PyErr JVal × List Request :=
  if name = "search_title" then _search_title upstream now args
  else if name = "get_recommendations" then _get_recommendations upstream now args
  else if name = "discover" then _discover upstream now args
  else (.error (.tmdb ⟨"Unknown tool: " ++ name, "UNKNOWN_TOOL", 400⟩), [])

/-- The uniform error envelope built by `call_tool`'s two except clauses:
classified errors carry their code and `source: "TMDB"`; anything else is
`INTERNAL_ERROR` with the raw message and no source. -/
def error_envelope : PyErr → JVal
  | .tmdb e => .obj [("error", .str e.code), ("message", .str e.message),
      ("source", .str "TMDB")]
  | e => .obj [("error", .str "INTERNAL_ERROR"), ("message", .str (pyMessage e))]

/-- The health-check payload (the timestamp is modelled as the numeric
clock value rather than a formatted date string). -/
def health_payload (apiKeySet : Bool) (c : CacheT) (now : ℚ) : JVal :=
  .obj [("status", .str "ok"), ("tmdb_api_key_configured", .bool apiKeySet),
    ("cache_entries", .int c.length), ("timestamp_utc", .float now)]

/-- `call_tool`: health bypasses the cache; otherwise look up the cache,
dispatch on a miss, cache only a success, and serialize every error as the
uniform envelope.  Total by construction — no exception escapes it. -/
def call_tool (upstream : Upstream) (apiKeySet : Bool) (now : ℚ) (cache : CacheT)
    (name : String) (arguments : JObj) : DispatchTrace :=
  if name = "health" then
    ⟨⟨health_payload apiKeySet cache now, false⟩, cache, [], [], [], false⟩
  else
    let key := cacheKey name arguments
    match _cache_get cache now name arguments with
    | (some payload, cache1) => ⟨⟨payload, false⟩, cache1, [key], [], [], true⟩
    | (none, cache1) =>
      match dispatch_op upstream now name arguments with
      | (.ok payload, reqs) =>
        ⟨⟨payload, false⟩, _cache_set cache1 now name arguments payload,
          [key], [key], reqs, false⟩
      | (.error e, reqs) =>
        ⟨⟨error_envelope e, true⟩, cache1, [key], [], reqs, false⟩

/-- Claim C1: with the API key set, if every attempt observes HTTP 429 the
client makes exactly 3 attempts, sleeping 1.0 then 2.0 time-units between
them, and fails with code `RATE_LIMIT`; if the first attempt observes a 4xx
status other than 429 it fails immediately with `BAD_REQUEST`, after exactly
one attempt and no backoff sleep. -/
theorem claim_c1_retry_classification :
    (∀ responses : Nat → HttpOutcome,
      (∀ n, 1 ≤ n → n ≤ 3 → ∃ b, responses n = .response 429 b) →
      tmdb_get true responses =
        ⟨.error ⟨"TMDB rate limit reached after retries", "RATE_LIMIT", 429⟩, 3, [1, 2]⟩) ∧
    (∀ (responses : Nat → HttpOutcome) (status : Nat) (body : Option JVal),
      responses 1 = .response status body → 400 ≤ status → status < 500 → status ≠ 429 →
      tmdb_get true responses =
        ⟨.error ⟨"TMDB returned " ++ toString status, "BAD_REQUEST", status⟩, 1, []⟩) := by
  constructor
  · intro responses h
    obtain ⟨b1, h1⟩ := h 1 (by omega) (by omega)
    obtain ⟨b2, h2⟩ := h 2 (by omega) (by omega)
    obtain ⟨b3, h3⟩ := h 3 (by omega) (by omega)
    norm_num [tmdb_get, tmdbLoop, MAX_RETRIES, INITIAL_BACKOFF_SECONDS, h1, h2, h3]
  · intro responses status body h1 h400 h500 hne
    have hn429 : ¬(status = 429) := hne
    have hn500 : ¬(500 ≤ status) := by omega
    norm_num [tmdb_get, tmdbLoop, MAX_RETRIES, INITIAL_BACKOFF_SECONDS, h1, hn429,
      hn500, h400]

/-- Witness for C1 at concrete network oracles: an always-429 oracle and a
first-attempt-404 oracle. -/
theorem claim_c1_witness :
    tmdb_get true (fun _ => .response 429 none) =
      ⟨.error ⟨"TMDB rate limit reached after retries", "RATE_LIMIT", 429⟩, 3, [1, 2]⟩ ∧
    tmdb_get true (fun _ => .response 404 none) =
      ⟨.error ⟨"TMDB returned " ++ toString 404, "BAD_REQUEST", 404⟩, 1, []⟩ :=
  ⟨claim_c1_retry_classification.1 (fun _ => .response 429 none)
      (fun _ _ _ => ⟨none, rfl⟩),
    claim_c1_retry_classification.2 (fun _ => .response 404 none) 404 none rfl
      (by omega) (by omega) (by omega)⟩

/-- Claim C5: a cache entry whose age exceeds the fixed TTL of 300 seconds is
reported absent by `_cache_get` and removed from the map by that very read,
and on such a state the dispatcher does not serve from the cache (it proceeds
to a fresh dispatch). -/
theorem claim_c5_ttl_expiry (cache : CacheT) (now ts : ℚ) (data : JVal)
    (name : String) (args : JObj)
    (hl : dictFind cache (cacheKey name args) = some (ts, data))
    (hexp : now - ts > 300) :
    _cache_get cache now name args = (none, dictPop cache (cacheKey name args)) ∧
    CACHE_TTL_SECONDS = 300 ∧
    (∀ (upstream : Upstream) (apiKeySet : Bool), name ≠ "health" →
      (call_tool upstream apiKeySet now cache name args).cacheHit = false) := by
  have hget : _cache_get cache now name args = (none, dictPop cache (cacheKey name args)) := by
    simp only [_cache_get, hl, CACHE_TTL_SECONDS]
    rw [if_pos hexp]
  refine ⟨hget, rfl, ?_⟩
  intro upstream apiKeySet hname
  unfold call_tool
  rw [if_neg hname, hget]
  rcases hop : dispatch_op upstream now name args with ⟨res, reqs⟩
  cases res <;> simp

/-- Witness for C5: a concrete entry written at time 0 and read at time 301. -/
theorem claim_c5_witness :
    _cache_get [(("discover", "\x7b\x7d"), (0, JVal.null))] 301 "discover" [] =
      (none, dictPop [(("discover", "\x7b\x7d"), (0, JVal.null))] (cacheKey "discover" [])) :=
  (claim_c5_ttl_expiry [(("discover", "\x7b\x7d"), (0, JVal.null))] 301 0 JVal.null
    "discover" [] (by decide) (by norm_num)).1

/-- Claim C3 is false as stated: the normaliser is not total on arbitrary
JSON objects.  On the empty record it raises `KeyError("id")` (from
`int(item["id"])`) instead of returning a normalized item. -/
theorem claim_c3_counterexample :
    _map_search_item (JVal.obj []) "movie" = .error (.keyError "id") := by decide

/-- If the record has no `vote_average` key, the rating coercion yields 0.0. -/
theorem rating_default (fields : JObj) (r : ℚ)
    (hvote : pyFloatOf (pyOr (dictGet fields "vote_average") (.float 0)) = .ok r)
    (h1 : jlookup fields "vote_average" = none) : r = 0 := by
  rw [show pyOr (dictGet fields "vote_average") (.float 0) = .float 0 from by
    simp [pyOr, dictGet, h1, truthy]] at hvote
  simpa [pyFloatOf] using hvote.symm

/-- Claim C3 as amended: for every provider record whose `id` coerces to an
integer, whose date chain is falsy or a string with an integer-parsable
leading segment, and whose rating value coerces to a float, the normaliser
succeeds; `id` and `title` are always present in the output, and missing
optional fields degrade to their defaults (title `""`, year absent/None,
rating `0.0`, overview `""`, poster absent/None). -/
theorem claim_c3_amended (fields : JObj) (item_type : String) (vid : JVal)
    (n : Int) (r : ℚ)
    (hid : jlookup fields "id" = some vid)
    (hidc : pyIntOf vid = .ok n)
    (hdate : truthy (pyOr (dictGet fields "release_date") (dictGet fields "first_air_date")) = false ∨
      (∃ s k, pyOr (dictGet fields "release_date") (dictGet fields "first_air_date") = .str s ∧
        pyIntOfString (headSegment s) = .ok k))
    (hvote : pyFloatOf (pyOr (dictGet fields "vote_average") (.float 0)) = .ok r) :
    ∃ out : JObj, _map_search_item (.obj fields) item_type = .ok (.obj out) ∧
      jlookup out "id" = some (.int n) ∧
      (∃ tv, jlookup out "title" = some tv) ∧
      (jlookup fields "title" = none → jlookup fields "name" = none →
        jlookup out "title" = some (.str "")) ∧
      (truthy (pyOr (dictGet fields "release_date") (dictGet fields "first_air_date")) = false →
        jlookup out "year" = some JVal.null) ∧
      (jlookup fields "vote_average" = none → jlookup out "rating" = some (.float 0)) ∧
      (jlookup fields "overview" = none → jlookup out "overview" = some (.str "")) ∧
      (jlookup fields "poster_path" = none → jlookup out "poster_path" = some JVal.null) := by
  rcases hdate with hfalse | ⟨s, k, hs, hk⟩
  · refine ⟨[("id", .int n),
      ("title", pyOr (pyOr (dictGet fields "title") (dictGet fields "name")) (.str "")),
      ("type", .str item_type), ("year", JVal.null), ("rating", .float r),
      ("overview", dictGetD fields "overview" (.str "")),
      ("poster_path", dictGet fields "poster_path")], ?_, ?_, ?_, ?_, ?_, ?_, ?_, ?_⟩
    · simp [_map_search_item, hfalse, hvote, hid, hidc]
    · simp [jlookup]
    · exact ⟨_, rfl⟩
    · intro h1 h2
      simp [jlookup, pyOr, dictGet, h1, h2, truthy]
    · intro _
      simp [jlookup]
    · intro h1
      have hr := rating_default fields r hvote h1
      simp [jlookup, hr]
    · intro h1
      simp [jlookup, dictGetD, h1]
    · intro h1
      simp [jlookup, dictGet, h1]
  · by_cases hse : truthy (JVal.str s) = true
    · refine ⟨[("id", .int n),
        ("title", pyOr (pyOr (dictGet fields "title") (dictGet fields "name")) (.str "")),
        ("type", .str item_type), ("year", JVal.int k), ("rating", .float r),
        ("overview", dictGetD fields "overview" (.str "")),
        ("poster_path", dictGet fields "poster_path")], ?_, ?_, ?_, ?_, ?_, ?_, ?_, ?_⟩
      · simp [_map_search_item, hs, hse, hk, hvote, hid, hidc, Except.map]
      · simp [jlookup]
      · exact ⟨_, rfl⟩
      · intro h1 h2
        simp [jlookup, pyOr, dictGet, h1, h2, truthy]
      · intro hcon
        rw [hs] at hcon
        rw [hse] at hcon
        exact Bool.noConfusion hcon
      · intro h1
        have hr := rating_default fields r hvote h1
        simp [jlookup, hr]
      · intro h1
        simp [jlookup, dictGetD, h1]
      · intro h1
        simp [jlookup, dictGet, h1]
    · have hse2 : truthy (JVal.str s) = false := by
        revert hse
        cases truthy (JVal.str s) <;> simp
      refine ⟨[("id", .int n),
        ("title", pyOr (pyOr (dictGet fields "title") (dictGet fields "name")) (.str "")),
        ("type", .str item_type), ("year", JVal.null), ("rating", .float r),
        ("overview", dictGetD fields "overview" (.str "")),
        ("poster_path", dictGet fields "poster_path")], ?_, ?_, ?_, ?_, ?_, ?_, ?_, ?_⟩
      · simp [_map_search_item, hs, hse2, hvote, hid, hidc]
      · simp [jlookup]
      · exact ⟨_, rfl⟩
      · intro h1 h2
        simp [jlookup, pyOr, dictGet, h1, h2, truthy]
      · intro _
        simp [jlookup]
      · intro h1
        have hr := rating_default fields r hvote h1
        simp [jlookup, hr]
      · intro h1
        simp [jlookup, dictGetD, h1]
      · intro h1
        simp [jlookup, dictGet, h1]

/-- Witness for the amended C3 at the spec's worked example record
(`Inception`, `release_date` 2010-07-16, `vote_average` 8.8). -/
theorem claim_c3_witness :
    ∃ out : JObj,
      _map_search_item (JVal.obj [("id", .int 123), ("title", .str "Inception"),
        ("overview", .str "Dream heist."), ("release_date", .str "2010-07-16"),
        ("vote_average", .float (44 / 5)), ("poster_path", .str "/poster.jpg")])
        "movie" = .ok (.obj out) ∧
      jlookup out "id" = some (.int 123) ∧ (∃ tv, jlookup out "title" = some tv) := by
  obtain ⟨out, h1, h2, h3, _⟩ := claim_c3_amended
    [("id", .int 123), ("title", .str "Inception"),
      ("overview", .str "Dream heist."), ("release_date", .str "2010-07-16"),
      ("vote_average", .float (44 / 5)), ("poster_path", .str "/poster.jpg")]
    "movie" (.int 123) 123 (44 / 5) (by decide) (by decide)
    (Or.inr ⟨"2010-07-16", 2010, by decide, by decide⟩)
    (by
      have hva : truthy (JVal.float (44 / 5)) = true := by
        simp only [truthy, Bool.not_eq_eq_eq_not, Bool.not_false, decide_eq_true_eq]
        norm_num
      have h : pyOr (dictGet [("id", JVal.int 123), ("title", JVal.str "Inception"),
          ("overview", JVal.str "Dream heist."), ("release_date", JVal.str "2010-07-16"),
          ("vote_average", JVal.float (44 / 5)), ("poster_path", JVal.str "/poster.jpg")]
          "vote_average") (.float 0) = .float (44 / 5) := by
        simp [pyOr, dictGet, jlookup, hva]
      rw [h]
      rfl)
  exact ⟨out, h1, h2, h3⟩

/-- Claim C2: when the provider returns a result list of length zero,
`_search_title` fails with `TITLE_NOT_FOUND` (status 404), while
`_get_recommendations` and `_discover` succeed with an empty `results`
list. -/
theorem claim_c2_zero_results :
    (∀ (upstream : Upstream) (now : ℚ) (args : JObj) (q : String),
      (∀ p ps, upstream p ps = .ok (.obj [("results", .arr [])])) →
      jlookup args "query" = some (.str q) → pyStripStr q ≠ "" →
      (pyOr (dictGet args "type") (.str "movie") = .str "movie" ∨
        pyOr (dictGet args "type") (.str "movie") = .str "tv") →
      (dictGet args "year" = JVal.null ∨ isPyInt (dictGet args "year") = true) →
      (_search_title upstream now args).1 =
        .error (.tmdb ⟨"No results for query \x27" ++ pyStripStr q ++ "\x27",
          "TITLE_NOT_FOUND", 404⟩)) ∧
    (∀ (upstream : Upstream) (now : ℚ) (args : JObj) (n : Int),
      (∀ p ps, upstream p ps = .ok (.obj [("results", .arr [])])) →
      pyIntOf (dictGet args "id") = .ok n →
      (dictGet args "type" = .str "movie" ∨ dictGet args "type" = .str "tv") →
      (_get_recommendations upstream now args).1 =
        .ok (.obj [("results", .arr []), ("source", .str "TMDB"),
          ("fetched_at", .float now)])) ∧
    (∀ (upstream : Upstream) (now : ℚ) (args : JObj),
      (∀ p ps, upstream p ps = .ok (.obj [("results", .arr [])])) →
      (dictGet args "type" = .str "movie" ∨ dictGet args "type" = .str "tv") →
      (pyOr (dictGet args "sort_by") (.str "popularity") = .str "popularity" ∨
        pyOr (dictGet args "sort_by") (.str "popularity") = .str "vote_average") →
      (dictGet args "year" = JVal.null ∨ isPyInt (dictGet args "year") = true) →
      (_discover upstream now args).1 =
        .ok (.obj [("results", .arr []), ("source", .str "TMDB"),
          ("fetched_at", .float now)])) := by
  refine ⟨?_, ?_, ?_⟩
  · intro upstream now args q hup hq hq2 htype hyear
    have hnn : isPyInt (dictGet args "year") = true → dictGet args "year" ≠ JVal.null := by
      intro hi h
      rw [h] at hi
      exact Bool.noConfusion hi
    rcases hyear with hy | hy
    · rcases htype with ht | ht <;>
        simp [_search_title, hq, pyStrip, hq2, ht, hy, hup, pyGetD, dictGetD, jlookup,
          truthy, mapSearchItems, pyIter, mapExcept]
    · have hnn2 : dictGet args "year" ≠ JVal.null := hnn hy
      rcases htype with ht | ht <;>
        simp [_search_title, hq, pyStrip, hq2, ht, hy, hnn2, hup, pyGetD, dictGetD, jlookup,
          truthy, mapSearchItems, pyIter, mapExcept]
  · intro upstream now args n hup hid htype
    rcases htype with ht | ht <;>
      simp [_get_recommendations, hid, ht, hup, pyGetD, dictGetD, jlookup, truthy,
        recItems, pyIter, mapExcept]
  · intro upstream now args hup htype hsort hyear
    have hnn : isPyInt (dictGet args "year") = true → dictGet args "year" ≠ JVal.null := by
      intro hi h
      rw [h] at hi
      exact Bool.noConfusion hi
    rcases hyear with hy | hy
    · rcases htype with ht | ht <;> rcases hsort with hs | hs <;>
        simp [_discover, ht, hs, hy, hup, pyGetD, dictGetD, jlookup, truthy,
          mapSearchItems, pyIter, mapExcept, jvalStr]
    · have hnn2 : dictGet args "year" ≠ JVal.null := hnn hy
      rcases htype with ht | ht <;> rcases hsort with hs | hs <;>
        simp [_discover, ht, hs, hy, hnn2, hup, pyGetD, dictGetD, jlookup, truthy,
          mapSearchItems, pyIter, mapExcept, jvalStr]

/-- Witness for C2 at concrete inputs: a provider stub returning zero
results, `search_title({query: "Inception"})`, `get_recommendations({id: 1,
type: "movie"})` and `discover({type: "tv"})`. -/
theorem claim_c2_witness :
    (_search_title (fun _ _ => .ok (.obj [("results", .arr [])])) 7
        [("query", .str "Inception")]).1 =
      .error (.tmdb ⟨"No results for query \x27" ++ pyStripStr "Inception" ++ "\x27",
        "TITLE_NOT_FOUND", 404⟩) ∧
    (_get_recommendations (fun _ _ => .ok (.obj [("results", .arr [])])) 7
        [("id", .int 1), ("type", .str "movie")]).1 =
      .ok (.obj [("results", .arr []), ("source", .str "TMDB"), ("fetched_at", .float 7)]) ∧
    (_discover (fun _ _ => .ok (.obj [("results", .arr [])])) 7
        [("type", .str "tv")]).1 =
      .ok (.obj [("results", .arr []), ("source", .str "TMDB"), ("fetched_at", .float 7)]) :=
  ⟨claim_c2_zero_results.1 (fun _ _ => .ok (.obj [("results", .arr [])])) 7
      [("query", .str "Inception")] "Inception" (fun _ _ => rfl) rfl (by decide)
      (Or.inl rfl) (Or.inl rfl),
    claim_c2_zero_results.2.1 (fun _ _ => .ok (.obj [("results", .arr [])])) 7
      [("id", .int 1), ("type", .str "movie")] 1 (fun _ _ => rfl) rfl (Or.inl rfl),
    claim_c2_zero_results.2.2 (fun _ _ => .ok (.obj [("results", .arr [])])) 7
      [("type", .str "tv")] (fun _ _ => rfl) (Or.inr rfl) (Or.inl rfl) (Or.inl rfl)⟩

/-- Claim C10: a `search_title` call whose `query` value is present but not a
string raises `AttributeError` from `.strip()`, an unclassified exception, so
the dispatcher answers with the `INTERNAL_ERROR` envelope (not
`VALIDATION_ERROR`) and no provider request is made. -/
theorem claim_c10_nonstring_query (upstream : Upstream) (apiKeySet : Bool) (now : ℚ)
    (cache : CacheT) (args : JObj) (v : JVal) (c1 : CacheT)
    (hq : jlookup args "query" = some v)
    (hv : ∀ s, v ≠ JVal.str s)
    (hmiss : _cache_get cache now "search_title" args = (none, c1)) :
    _search_title upstream now args =
      (.error (.attributeError
        ("\x27" ++ typeName v ++ "\x27 object has no attribute \x27strip\x27")), []) ∧
    (call_tool upstream apiKeySet now cache "search_title" args).result =
      ⟨.obj [("error", .str "INTERNAL_ERROR"),
        ("message", .str ("\x27" ++ typeName v ++ "\x27 object has no attribute \x27strip\x27"))],
        true⟩ ∧
    (call_tool upstream apiKeySet now cache "search_title" args).requests = [] := by
  have hstrip : pyStrip (dictGetD args "query" (.str "")) =
      .error (.attributeError
        ("\x27" ++ typeName v ++ "\x27 object has no attribute \x27strip\x27")) := by
    simp only [dictGetD, hq, Option.getD_some]
    cases v with
    | str s => exact absurd rfl (hv s)
    | null => rfl
    | bool b => rfl
    | int n => rfl
    | float q => rfl
    | arr xs => rfl
    | obj fs => rfl
  have hop : _search_title upstream now args =
      (.error (.attributeError
        ("\x27" ++ typeName v ++ "\x27 object has no attribute \x27strip\x27")), []) := by
    simp [_search_title, hstrip]
  refine ⟨hop, ?_, ?_⟩ <;>
  · unfold call_tool
    rw [if_neg (by decide), hmiss]
    simp [dispatch_op, hop, error_envelope, pyMessage]

/-- Witness for C10 at `search_title({query: 5})` on an empty cache. -/
theorem claim_c10_witness :
    (call_tool (fun _ _ => .error ⟨"x", "NETWORK_ERROR", 500⟩) true 0 []
        "search_title" [("query", .int 5)]).result =
      ⟨.obj [("error", .str "INTERNAL_ERROR"),
        ("message", .str ("\x27" ++ typeName (.int 5) ++ "\x27 object has no attribute \x27strip\x27"))],
        true⟩ :=
  (claim_c10_nonstring_query (fun _ _ => .error ⟨"x", "NETWORK_ERROR", 500⟩) true 0
    [] [("query", .int 5)] (.int 5) [] rfl (by intro s; exact fun h => JVal.noConfusion h)
    rfl).2.1

/-- Claim C9: the `genre` argument of `discover` is read but never forwarded
upstream: the operation's outcome (including every provider request it
issues) is invariant under changing the `genre` value, and the parameter
keys of every request it issues come from the fixed genre-free set
language/include_adult/sort_by plus the year filter. -/
theorem claim_c9_genre_ignored :
    (∀ (upstream : Upstream) (now : ℚ) (args1 args2 : JObj),
      (∀ k, k ≠ "genre" → jlookup args1 k = jlookup args2 k) →
      _discover upstream now args1 = _discover upstream now args2) ∧
    (∀ (upstream : Upstream) (now : ℚ) (args : JObj) (req : Request),
      req ∈ (_discover upstream now args).2 →
      req.2.map Prod.fst = ["language", "include_adult", "sort_by"] ∨
      req.2.map Prod.fst = ["language", "include_adult", "sort_by", "primary_release_year"] ∨
      req.2.map Prod.fst = ["language", "include_adult", "sort_by", "first_air_date_year"]) := by
  constructor
  · intro upstream now args1 args2 h
    have ht := h "type" (by decide)
    have hy := h "year" (by decide)
    have hl := h "language" (by decide)
    have hs := h "sort_by" (by decide)
    simp only [_discover, dictGet, ht, hy, hl, hs]
  · intro upstream now args req hreq
    simp only [_discover] at hreq
    split at hreq
    · simp at hreq
    · split at hreq
      · simp at hreq
      · split at hreq
        · simp at hreq
        · rename_i params heq
          have hp : params.map Prod.fst = ["language", "include_adult", "sort_by"] ∨
              params.map Prod.fst =
                ["language", "include_adult", "sort_by", "primary_release_year"] ∨
              params.map Prod.fst =
                ["language", "include_adult", "sort_by", "first_air_date_year"] := by
            split at heq
            · injection heq with h2
              subst h2
              left
              simp
            · split at heq
              · exact absurd heq (by simp)
              · split at heq
                · injection heq with h2
                  subst h2
                  right; left
                  simp
                · injection heq with h2
                  subst h2
                  right; right
                  simp
          split at hreq
          · simp at hreq
            subst hreq
            simpa using hp
          · split at hreq
            · simp at hreq
              subst hreq
              simpa using hp
            · split at hreq
              · simp at hreq
                subst hreq
                simpa using hp
              · simp at hreq
                subst hreq
                simpa using hp

/-- Witness for C9: `discover({type: "movie", genre: ["Action"]})` behaves
exactly like `discover({type: "movie"})`, and its one request carries only
the genre-free parameter keys. -/
theorem claim_c9_witness :
    _discover (fun _ _ => .ok (.obj [("results", .arr [])])) 7
        [("type", .str "movie"), ("genre", .arr [.str "Action"])] =
      _discover (fun _ _ => .ok (.obj [("results", .arr [])])) 7 [("type", .str "movie")] ∧
    (∀ req ∈ (_discover (fun _ _ => .ok (.obj [("results", .arr [])])) 7
        [("type", .str "movie"), ("genre", .arr [.str "Action"])]).2,
      req.2.map Prod.fst = ["language", "include_adult", "sort_by"] ∨
      req.2.map Prod.fst = ["language", "include_adult", "sort_by", "primary_release_year"] ∨
      req.2.map Prod.fst = ["language", "include_adult", "sort_by", "first_air_date_year"]) :=
  ⟨claim_c9_genre_ignored.1 (fun _ _ => .ok (.obj [("results", .arr [])])) 7
      [("type", .str "movie"), ("genre", .arr [.str "Action"])] [("type", .str "movie")]
      (by
        intro k hk
        simp only [jlookup]
        by_cases h : "type" = k
        · rw [if_pos h, if_pos h]
        · rw [if_neg h, if_neg h, if_neg (fun h2 => hk h2.symm)]),
    fun req hreq => claim_c9_genre_ignored.2
      (fun _ _ => .ok (.obj [("results", .arr [])])) 7
      [("type", .str "movie"), ("genre", .arr [.str "Action"])] req hreq⟩

/-- A trivial upstream stub used by concrete witnesses. -/
def stubUpstream : Upstream := fun _ _ => .error ⟨"x", "NETWORK_ERROR", 500⟩

/-- Claim C6: a cache write happens only when the dispatched operation
returns a success payload; every call that ends in an error (validation,
upstream, unknown tool, or internal) writes nothing to the cache. -/
theorem claim_c6_cache_only_success (upstream : Upstream) (apiKeySet : Bool)
    (now : ℚ) (cache : CacheT) (name : String) (args : JObj) :
    ((call_tool upstream apiKeySet now cache name args).result.isError = true →
      (call_tool upstream apiKeySet now cache name args).cacheWrites = []) ∧
    ((call_tool upstream apiKeySet now cache name args).cacheWrites ≠ [] →
      (call_tool upstream apiKeySet now cache name args).result.isError = false ∧
      ∃ payload reqs, name ≠ "health" ∧
        (_cache_get cache now name args).1 = none ∧
        dispatch_op upstream now name args = (.ok payload, reqs) ∧
        (call_tool upstream apiKeySet now cache name args).result.text = payload) := by
  unfold call_tool
  split
  · constructor
    · intro h
      exact absurd h (by simp)
    · intro h
      exact absurd rfl h
  · rename_i hname
    split
    · constructor
      · intro h
        exact absurd h (by simp)
      · intro h
        exact absurd rfl h
    · rename_i c1 heq
      split
      · rename_i payload reqs hop
        constructor
        · intro h
          exact absurd h (by simp)
        · intro _
          refine ⟨rfl, payload, reqs, hname, ?_, hop, rfl⟩
          rw [heq]
      · constructor
        · intro _
          rfl
        · intro h
          exact absurd rfl h

/-- Witness for C6: an unknown-tool call errors and writes nothing. -/
theorem claim_c6_witness :
    (call_tool stubUpstream true 0 [] "bogus" []).cacheWrites = [] :=
  (claim_c6_cache_only_success stubUpstream true 0 [] "bogus" []).1 (by decide)

/-- Claim C8: the dispatcher is total (it is a function into traces, never
an exception), and on a cache miss it renders every classified error as the
uniform envelope with its code, message and `source: "TMDB"`, every
unclassified exception as an `INTERNAL_ERROR` envelope with the raw message
and no source, and an unknown operation name as an `UNKNOWN_TOOL`
envelope. -/
theorem claim_c8_error_envelope (upstream : Upstream) (apiKeySet : Bool)
    (now : ℚ) (cache : CacheT) (name : String) (args : JObj) (c1 : CacheT)
    (hname : name ≠ "health")
    (hmiss : _cache_get cache now name args = (none, c1)) :
    (∀ e reqs, dispatch_op upstream now name args = (.error (.tmdb e), reqs) →
      (call_tool upstream apiKeySet now cache name args).result =
        ⟨.obj [("error", .str e.code), ("message", .str e.message),
          ("source", .str "TMDB")], true⟩) ∧
    (∀ pe reqs, dispatch_op upstream now name args = (.error pe, reqs) →
      (∀ e2, pe ≠ .tmdb e2) →
      (call_tool upstream apiKeySet now cache name args).result =
        ⟨.obj [("error", .str "INTERNAL_ERROR"),
          ("message", .str (pyMessage pe))], true⟩) ∧
    (name ≠ "search_title" → name ≠ "get_recommendations" → name ≠ "discover" →
      (call_tool upstream apiKeySet now cache name args).result =
        ⟨.obj [("error", .str "UNKNOWN_TOOL"),
          ("message", .str ("Unknown tool: " ++ name)),
          ("source", .str "TMDB")], true⟩) := by
  refine ⟨?_, ?_, ?_⟩
  · intro e reqs hop
    simp [call_tool, hname, hmiss, hop, error_envelope]
  · intro pe reqs hop hpe
    cases pe with
    | tmdb e2 => exact absurd rfl (hpe e2)
    | attributeError m => simp [call_tool, hname, hmiss, hop, error_envelope, pyMessage]
    | keyError k => simp [call_tool, hname, hmiss, hop, error_envelope, pyMessage]
    | valueError m => simp [call_tool, hname, hmiss, hop, error_envelope, pyMessage]
    | typeError m => simp [call_tool, hname, hmiss, hop, error_envelope, pyMessage]
  · intro h1 h2 h3
    simp [call_tool, dispatch_op, hname, hmiss, h1, h2, h3, error_envelope]

/-- Witness for C8: the `UNKNOWN_TOOL` envelope for a concrete unknown name
on an empty cache. -/
theorem claim_c8_witness :
    (call_tool stubUpstream true 0 [] "bogus" []).result =
      ⟨.obj [("error", .str "UNKNOWN_TOOL"),
        ("message", .str ("Unknown tool: " ++ "bogus")),
        ("source", .str "TMDB")], true⟩ :=
  (claim_c8_error_envelope stubUpstream true 0 [] "bogus" [] [] (by decide) rfl).2.2
    (by decide) (by decide) (by decide)

theorem dumpsFields_eq_map (fs : List (String × JVal)) :
    dumpsFields fs =
      fs.map (fun kv => (kv.1, "\"" ++ escapeStr kv.1 ++ "\": " ++ dumps kv.2)) := by
  induction fs with
  | nil => rfl
  | cons kv rest ih =>
    cases kv
    simp [dumpsFields, ih]

theorem sorted_lt_of_sorted_le (l : List (String × String))
    (hs : l.Sorted pairLe) (hnd : (l.map Prod.fst).Nodup) : l.Sorted pairLt := by
  have hne : l.Pairwise (fun a b => a.1 ≠ b.1) := List.pairwise_map.mp hnd
  refine (hs.and hne).imp ?_
  intro a b hab
  rcases hab with ⟨hle, hneq⟩
  by_cases h : strLtB a.1.data b.1.data = true
  · exact h
  · exfalso
    have h2 : strLtB a.1.data b.1.data = false := by
      revert h
      cases strLtB a.1.data b.1.data <;> simp
    have hdata : a.1.data = b.1.data := strLtB_eq_of_not _ _ h2 hle
    rcases a with ⟨a1, a2⟩
    rcases b with ⟨b1, b2⟩
    rcases a1 with ⟨ad⟩
    rcases b1 with ⟨bd⟩
    exact hneq (congrArg String.mk (by simpa using hdata))

theorem insertionSort_key_perm_eq (l1 l2 : List (String × String)) (hp : l1.Perm l2)
    (hnd : (l1.map Prod.fst).Nodup) :
    List.insertionSort pairLe l1 = List.insertionSort pairLe l2 := by
  have hs1 : (List.insertionSort pairLe l1).Sorted pairLe :=
    List.sorted_insertionSort pairLe l1
  have hs2 : (List.insertionSort pairLe l2).Sorted pairLe :=
    List.sorted_insertionSort pairLe l2
  have hperm : (List.insertionSort pairLe l1).Perm (List.insertionSort pairLe l2) :=
    (List.perm_insertionSort pairLe l1).trans (hp.trans (List.perm_insertionSort pairLe l2).symm)
  have hnd1 : ((List.insertionSort pairLe l1).map Prod.fst).Nodup :=
    (((List.perm_insertionSort pairLe l1).map Prod.fst).nodup_iff).mpr hnd
  have hnd2 : ((List.insertionSort pairLe l2).map Prod.fst).Nodup :=
    (((List.perm_insertionSort pairLe l2).map Prod.fst).nodup_iff).mpr
      (((hp.map Prod.fst).nodup_iff).mp hnd)
  exact List.eq_of_perm_of_sorted hperm
    (sorted_lt_of_sorted_le _ hs1 hnd1) (sorted_lt_of_sorted_le _ hs2 hnd2)

theorem dumps_obj_perm (fs1 fs2 : List (String × JVal)) (hp : fs1.Perm fs2)
    (hnd : (fs1.map Prod.fst).Nodup) : dumps (.obj fs1) = dumps (.obj fs2) := by
  have h1 : (dumpsFields fs1).Perm (dumpsFields fs2) := by
    rw [dumpsFields_eq_map, dumpsFields_eq_map]
    exact hp.map _
  have hk : ((dumpsFields fs1).map Prod.fst).Nodup := by
    rw [dumpsFields_eq_map, List.map_map]
    simpa [Function.comp] using hnd
  simp only [dumps]
  rw [insertionSort_key_perm_eq _ _ h1 hk]

theorem cacheKey_perm (name : String) (args1 args2 : JObj) (hp : args1.Perm args2)
    (hnd : (args1.map Prod.fst).Nodup) : cacheKey name args1 = cacheKey name args2 := by
  unfold cacheKey
  rw [dumps_obj_perm args1 args2 hp hnd]

theorem dictFind_map_set (k : String × String) (v : ℚ × JVal) :
    ∀ c : CacheT, (dictFind c k).isSome = true →
      dictFind (c.map (fun e => if e.1 = k then (k, v) else e)) k = some v
  | [] => by simp [dictFind]
  | e :: rest => by
    intro hsome
    by_cases he : e.1 = k
    · rw [List.map_cons, if_pos he]
      simp [dictFind]
    · rw [dictFind, if_neg he] at hsome
      simp only [List.map_cons, if_neg he]
      rw [dictFind, if_neg he]
      exact dictFind_map_set k v rest hsome

theorem dictFind_append_self (k : String × String) (v : ℚ × JVal) :
    ∀ c : CacheT, dictFind c k = none → dictFind (c ++ [(k, v)]) k = some v
  | [] => by simp [dictFind]
  | e :: rest => by
    intro hnone
    by_cases he : e.1 = k
    · rw [dictFind, if_pos he] at hnone
      exact Option.noConfusion hnone
    · rw [dictFind, if_neg he] at hnone
      rw [List.cons_append, dictFind, if_neg he]
      exact dictFind_append_self k v rest hnone

theorem dictFind_dictSet (c : CacheT) (k : String × String) (v : ℚ × JVal) :
    dictFind (dictSet c k v) k = some v := by
  unfold dictSet
  split
  · rename_i hsome
    exact dictFind_map_set k v c hsome
  · rename_i hnone
    refine dictFind_append_self k v c ?_
    revert hnone
    cases dictFind c k <;> simp

/-- Claim C4: the cache key is canonical in the argument order — two argument
objects holding the same key-value bindings in different orders derive the
same cache key, so after a successful fresh call with the first object, a
call with the second object within the TTL is served from the cache: same
payload, no provider request, no write, `cacheHit` set. -/
theorem claim_c4_canonical_key (upstream : Upstream) (apiKeySet : Bool)
    (now1 now2 : ℚ) (cache : CacheT) (name : String) (args1 args2 : JObj)
    (hp : args1.Perm args2) (hnd : (args1.map Prod.fst).Nodup)
    (hname : name ≠ "health")
    (hfresh : dictFind cache (cacheKey name args1) = none)
    (hsucc : (call_tool upstream apiKeySet now1 cache name args1).result.isError = false)
    (httl : now2 - now1 ≤ 300) :
    cacheKey name args1 = cacheKey name args2 ∧
    call_tool upstream apiKeySet now2
        (call_tool upstream apiKeySet now1 cache name args1).cache name args2 =
      ⟨⟨(call_tool upstream apiKeySet now1 cache name args1).result.text, false⟩,
        (call_tool upstream apiKeySet now1 cache name args1).cache,
        [cacheKey name args1], [], [], true⟩ := by
  have hkey : cacheKey name args1 = cacheKey name args2 := cacheKey_perm name args1 args2 hp hnd
  have hmiss : _cache_get cache now1 name args1 = (none, cache) := by
    simp [_cache_get, hfresh]
  rcases hop : dispatch_op upstream now1 name args1 with ⟨res, reqs⟩
  cases res with
  | error e =>
    have hbad : (call_tool upstream apiKeySet now1 cache name args1).result.isError = true := by
      simp [call_tool, hname, hmiss, hop]
    rw [hbad] at hsucc
    exact Bool.noConfusion hsucc
  | ok payload =>
    have hc1 : call_tool upstream apiKeySet now1 cache name args1 =
        ⟨⟨payload, false⟩, _cache_set cache now1 name args1 payload,
          [cacheKey name args1], [cacheKey name args1], reqs, false⟩ := by
      simp [call_tool, hname, hmiss, hop]
    refine ⟨hkey, ?_⟩
    rw [hc1]
    have hfind : dictFind (_cache_set cache now1 name args1 payload) (cacheKey name args2) =
        some (now1, payload) := by
      rw [← hkey]
      exact dictFind_dictSet cache (cacheKey name args1) (now1, payload)
    have hget2 : _cache_get (_cache_set cache now1 name args1 payload) now2 name args2 =
        (some payload, _cache_set cache now1 name args1 payload) := by
      simp only [_cache_get, hfind, CACHE_TTL_SECONDS]
      rw [if_neg (by linarith)]
    simp [call_tool, hname, hget2, hkey]

/-- Witness for C4: `discover` args `{type, year}` given in both orders,
first call at time 0 on an empty cache, second at time 100. -/
theorem claim_c4_witness :
    call_tool (fun _ _ => Except.ok (.obj [("results", .arr [])])) true 100
        (call_tool (fun _ _ => Except.ok (.obj [("results", .arr [])])) true 0 []
          "discover" [("type", .str "movie"), ("year", .int 2020)]).cache
        "discover" [("year", .int 2020), ("type", .str "movie")] =
      ⟨⟨(call_tool (fun _ _ => Except.ok (.obj [("results", .arr [])])) true 0 []
          "discover" [("type", .str "movie"), ("year", .int 2020)]).result.text, false⟩,
        (call_tool (fun _ _ => Except.ok (.obj [("results", .arr [])])) true 0 []
          "discover" [("type", .str "movie"), ("year", .int 2020)]).cache,
        [cacheKey "discover" [("type", .str "movie"), ("year", .int 2020)]], [], [], true⟩ :=
  (claim_c4_canonical_key (fun _ _ => Except.ok (.obj [("results", .arr [])])) true 0 100
    [] "discover" [("type", .str "movie"), ("year", .int 2020)]
    [("year", .int 2020), ("type", .str "movie")]
    (List.Perm.swap ("year", JVal.int 2020) ("type", JVal.str "movie") [])
    (by decide) (by decide) rfl (by decide) (by norm_num)).2

/-- The conditions under which `_search_title`'s own validation rejects a
call, read off the source checks in order: empty query after strip, bad
type, or a present non-integer year. -/
def searchValidationFails (args : JObj) : Prop :=
  pyStrip (dictGetD args "query" (.str "")) = .ok "" ∨
  (∃ q, pyStrip (dictGetD args "query" (.str "")) = .ok q ∧ q ≠ "" ∧
    ¬(pyOr (dictGet args "type") (.str "movie") = JVal.str "movie" ∨
      pyOr (dictGet args "type") (.str "movie") = JVal.str "tv")) ∨
  (∃ q, pyStrip (dictGetD args "query" (.str "")) = .ok q ∧ q ≠ "" ∧
    (pyOr (dictGet args "type") (.str "movie") = JVal.str "movie" ∨
      pyOr (dictGet args "type") (.str "movie") = JVal.str "tv") ∧
    dictGet args "year" ≠ JVal.null ∧ isPyInt (dictGet args "year") = false)

/-- The conditions under which `_get_recommendations` rejects a call: an id
that `int()` cannot coerce, or a bad type. -/
def recsValidationFails (args : JObj) : Prop :=
  (∃ e, pyIntOf (dictGet args "id") = .error e) ∨
  ((∃ n, pyIntOf (dictGet args "id") = .ok n) ∧
    ¬(dictGet args "type" = JVal.str "movie" ∨ dictGet args "type" = JVal.str "tv"))

/-- The conditions under which `_discover` rejects a call: bad type, bad
sort order, or a present non-integer year. -/
def discoverValidationFails (args : JObj) : Prop :=
  ¬(dictGet args "type" = JVal.str "movie" ∨ dictGet args "type" = JVal.str "tv") ∨
  ((dictGet args "type" = JVal.str "movie" ∨ dictGet args "type" = JVal.str "tv") ∧
    ¬(pyOr (dictGet args "sort_by") (.str "popularity") = JVal.str "popularity" ∨
      pyOr (dictGet args "sort_by") (.str "popularity") = JVal.str "vote_average")) ∨
  ((dictGet args "type" = JVal.str "movie" ∨ dictGet args "type" = JVal.str "tv") ∧
    (pyOr (dictGet args "sort_by") (.str "popularity") = JVal.str "popularity" ∨
      pyOr (dictGet args "sort_by") (.str "popularity") = JVal.str "vote_average") ∧
    dictGet args "year" ≠ JVal.null ∧ isPyInt (dictGet args "year") = false)

/-- Claim C7 is false as stated on two counts, at concrete inputs: the
dispatcher performs a cache read even for `search_title({})`, which fails
validation (so "no cache read" does not hold); and the schema-invalid
argument object `{query: 5}` is answered with `INTERNAL_ERROR`, not
`VALIDATION_ERROR`. -/
theorem claim_c7_counterexample :
    (call_tool stubUpstream true 0 [] "search_title" []).cacheReads =
      [("search_title", "\x7b\x7d")] ∧
    (call_tool stubUpstream true 0 [] "search_title" []).result =
      ⟨error_envelope (VALIDATION "query is required"), true⟩ ∧
    (call_tool stubUpstream true 0 [] "search_title" []).requests = [] ∧
    (call_tool stubUpstream true 0 [] "search_title" [("query", JVal.int 5)]).result.text =
      .obj [("error", .str "INTERNAL_ERROR"),
        ("message", .str "\x27int\x27 object has no attribute \x27strip\x27")] := by
  refine ⟨?_, ?_, ?_, ?_⟩ <;> decide

/-- Claim C7 as amended: for every argument object that an operation's own
validation checks reject, the operation fails with `VALIDATION_ERROR` having
issued no provider request (so no retry either), and the dispatcher then
returns the validation envelope with no cache write — though it does perform
one cache read first. -/
theorem claim_c7_amended :
    (∀ (upstream : Upstream) (now : ℚ) (args : JObj), searchValidationFails args →
      ∃ msg, _search_title upstream now args = (.error (VALIDATION msg), [])) ∧
    (∀ (upstream : Upstream) (now : ℚ) (args : JObj), recsValidationFails args →
      ∃ msg, _get_recommendations upstream now args = (.error (VALIDATION msg), [])) ∧
    (∀ (upstream : Upstream) (now : ℚ) (args : JObj), discoverValidationFails args →
      ∃ msg, _discover upstream now args = (.error (VALIDATION msg), [])) ∧
    (∀ (upstream : Upstream) (apiKeySet : Bool) (now : ℚ) (cache : CacheT)
      (name : String) (args : JObj) (c1 : CacheT) (msg : String) (reqs : List Request),
      name ≠ "health" → _cache_get cache now name args = (none, c1) →
      dispatch_op upstream now name args = (.error (VALIDATION msg), reqs) →
      (call_tool upstream apiKeySet now cache name args).cacheWrites = [] ∧
      (call_tool upstream apiKeySet now cache name args).requests = reqs ∧
      (call_tool upstream apiKeySet now cache name args).result =
        ⟨error_envelope (VALIDATION msg), true⟩ ∧
      (call_tool upstream apiKeySet now cache name args).cacheReads =
        [cacheKey name args]) := by
  refine ⟨?_, ?_, ?_, ?_⟩
  · intro upstream now args hval
    rcases hval with h1 | ⟨q, hq, hqne, htype⟩ | ⟨q, hq, hqne, htype, hynn, hyint⟩
    · exact ⟨"query is required", by simp [_search_title, h1]⟩
    · exact ⟨"type must be \x27movie\x27 or \x27tv\x27", by simp [_search_title, hq, hqne, htype]⟩
    · refine ⟨"year must be an integer", ?_⟩
      rcases htype with ht | ht <;> simp [_search_title, hq, hqne, ht, hynn, hyint]
  · intro upstream now args hval
    rcases hval with ⟨e, he⟩ | ⟨⟨n, hn⟩, htype⟩
    · exact ⟨"id must be an integer", by simp [_get_recommendations, he]⟩
    · exact ⟨"type must be \x27movie\x27 or \x27tv\x27", by simp [_get_recommendations, hn, htype]⟩
  · intro upstream now args hval
    rcases hval with h1 | ⟨htype, hsort⟩ | ⟨htype, hsort, hynn, hyint⟩
    · exact ⟨"type must be \x27movie\x27 or \x27tv\x27", by simp [_discover, h1]⟩
    · refine ⟨"sort_by must be \x27popularity\x27 or \x27vote_average\x27", ?_⟩
      rcases htype with ht | ht <;> simp [_discover, ht, hsort]
    · refine ⟨"year must be an integer", ?_⟩
      rcases htype with ht | ht <;> rcases hsort with hs | hs <;>
        simp [_discover, ht, hs, hynn, hyint]
  · intro upstream apiKeySet now cache name args c1 msg reqs hname hmiss hop
    refine ⟨?_, ?_, ?_, ?_⟩ <;> simp [call_tool, hname, hmiss, hop]

/-- Witness for the amended C7: `search_title({})` at a concrete clock and
empty cache fails validation with no request, no cache write. -/
theorem claim_c7_witness :
    (∃ msg, _search_title stubUpstream 7 [] = (.error (VALIDATION msg), [])) ∧
    (call_tool stubUpstream true 0 [] "search_title" []).cacheWrites = [] ∧
    (call_tool stubUpstream true 0 [] "search_title" []).requests = [] :=
  ⟨claim_c7_amended.1 stubUpstream 7 [] (Or.inl (by decide)),
    (claim_c7_amended.2.2.2 stubUpstream true 0 [] "search_title" [] [] "query is required"
      [] (by decide) rfl (by decide)).1,
    (claim_c7_amended.2.2.2 stubUpstream true 0 [] "search_title" [] [] "query is required"
      [] (by decide) rfl (by decide)).2.1⟩
